import Mathlib

/-!
# snappy: command-line processing, session start-up and shut-down

A shallow embedding of `src/snappy.c` (`close_down`, `process_args`, `main`).

The three functions do little computation of their own: they sequence calls
to collaborators (GLib option parsing, the history store, the URI helpers of
`utils.c`, the GStreamer engine of `gst_engine.c`, the user interface and the
screensaver).  The embedding therefore makes the *calls* observable: every
function returns the list of collaborator calls it performs, in program
order, together with the values it computes.  What a collaborator answers is
not decided by this file; the answers are collected in a `World` record which
every definition takes as a parameter.

Conventions.
* A nullable `gchar *` is an `Option String`; a `GList *` of such pointers is
  a `List (Option String)` (`NULL` is the empty list).
* `g_print (fmt, args...)` is recorded with its format string and arguments.
* Collaborator calls are assumed to return to their caller.  What a
  collaborator calls in turn (for instance a callback run inside `gtk_main`)
  is not part of the list.
* The embedding follows the `G_OS_UNIX` branch of the data-directory lookup.
-/

namespace Snappy

/-- The `VERSION` constant of the source file. -/
def VERSION : String := "1.0"

/-- Size in bytes of the stack buffer `suburi_path_guessing` in `main`. -/
def SUBURI_BUFFER_SIZE : Nat := 1024

/-- One variadic argument of a `g_print` call. -/
inductive PrintArg where
  | int (n : Nat)
  | str (s : String)
  deriving DecidableEq, Repr

/-- A `GList *` whose element data are nullable C strings. -/
abbrev GList := List (Option String)

/-- The `GFileTest` masks used by `main`. -/
inductive FileTest where
  | EXISTS
  | EXISTS_OR_IS_DIR
  deriving DecidableEq, Repr

/-- The fields of `GstEngine` that `snappy.c` reads or writes. -/
structure GstEngine where
  secret : Bool
  loop : Bool
  player : Nat
  bus : Nat
  deriving DecidableEq, Repr

/-- The fields of `UserInterface` that `snappy.c` reads or writes.
`screensaver` is the handle the interface code keeps in `ui->screensaver`. -/
structure UserInterface where
  uri_list : GList
  blind : Bool
  fullscreen : Bool
  hide : Bool
  tags : Bool
  data_dir : String
  screensaver : Nat
  engine : Option GstEngine
  texture : Option Nat
  deriving DecidableEq, Repr

/-- A call made by `snappy.c` to code outside of it, with the arguments that
matter to the caller. -/
inductive Call where
  | g_print (fmt : String) (args : List PrintArg)
  | g_option_context_new (parameter_string : String)
  | clutter_set_windowing_backend
  | gtk_clutter_init (argv : List String)
  | g_strdup (s : String)
  | g_file_test (filename : Option String) (test : FileTest)
  | g_option_context_add_main_entries
  | gst_init_get_option_group
  | clutter_get_option_group
  | g_option_context_add_group
  | g_option_context_parse (argv : List String)
  | g_error_free
  | get_recently_viewed
  | clean_uri (input_uri : String)
  | g_option_context_get_help
  | gst_init
  | clutter_gst_init
  | interface_init (ui : UserInterface)
  | clutter_gst_video_sink_new
  | g_object_new (object_type : String)
  | engine_init
  | gst_bus_add_watch (bus : Nat)
  | gst_object_unref (object : Nat)
  | strip_filename_extension (filename : Option String)
  | g_filename_from_uri (uri : String)
  | engine_load_uri (engine : GstEngine) (uri : Option String)
  | interface_start (ui : UserInterface) (uri : Option String)
  | set_subtitle_uri (engine : GstEngine) (suburi : Option String)
  | change_state (engine : GstEngine) (state : String)
  | load_dlna
  | gtk_main
  | add_uri_unfinished (engine : GstEngine)
  | screensaver_enable (screensaver : Nat) (enable : Bool)
  | screensaver_free (screensaver : Nat)
  | close_dlna
  | g_list_free (list : Option GList)
  | g_option_context_free
  deriving DecidableEq, Repr

/-- What `g_option_context_parse` reports on success: for each entry of the
option table whether the option was given, the argument of `--subtitles`, and
the argument vector that is left (`argv[0]` followed by the positional
tokens). -/
structure Parsed where
  blind : Bool
  fullscreen : Bool
  hide : Bool
  loop : Bool
  tags : Bool
  recent : Bool
  secret : Bool
  suburi : Option String
  version : Bool
  argv : List String

/-- The variables of `main` that `process_args` writes through pointers. -/
structure Flags where
  blind : Bool
  fullscreen : Bool
  hide : Bool
  loop : Bool
  secret : Bool
  suburi : Option String
  tags : Bool
  deriving DecidableEq, Repr

/-- The answers of the collaborators and the build configuration. -/
structure World where
  /-- The build-time constant `SNAPPY_DATA_DIR`. -/
  SNAPPY_DATA_DIR : String
  /-- Whether the file is compiled with `ENABLE_DBUS`. -/
  ENABLE_DBUS : Bool
  /-- Result of `gtk_clutter_init`: `none` unless `CLUTTER_INIT_SUCCESS`,
  otherwise the argument vector it leaves. -/
  gtk_clutter_init : List String → Option (List String)
  /-- Result of `g_option_context_parse`: the error message or the options. -/
  g_option_context_parse : List String → Except String Parsed
  /-- Result of `get_recently_viewed`: `NULL` or a `NULL`-terminated array. -/
  get_recently_viewed : Option (List String)
  /-- Result of `g_option_context_get_help`. -/
  g_option_context_get_help : String
  /-- Result of `clean_uri` of `utils.c`. -/
  clean_uri : String → Option String
  /-- Result of `strip_filename_extension` of `utils.c`. -/
  strip_filename_extension : Option String → Option String
  /-- Result of `g_filename_from_uri`. -/
  g_filename_from_uri : String → Option String
  /-- Result of `g_file_test`. -/
  g_file_test : Option String → FileTest → Bool
  /-- Result of `clutter_gst_video_sink_new`: `NULL` or the sink. -/
  clutter_gst_video_sink_new : Option Nat
  /-- Result of `engine_init`. -/
  engine_init : Bool
  /-- The object `engine_init` stores in `engine->player`. -/
  player : Nat
  /-- The object `engine_init` stores in `engine->bus`. -/
  bus : Nat
  /-- The handle the interface code stores in `ui->screensaver`. -/
  screensaver : Nat
  /-- The actor created for the video texture. -/
  texture : Nat

/-! ## `close_down` -/

/-- The calls of `close_down (ui, engine)`, in program order.  The function
writes no field of `ui` or `engine`. -/
def close_down (ui : UserInterface) (engine : GstEngine) : List Call :=
  [ Call.g_print "closing snappy\n" [],
    -- Save position if file isn't finished playing
    Call.add_uri_unfinished engine,
    -- Close gstreamer gracefully
    Call.change_state engine "Null",
    -- Re-enable screensaver
    Call.screensaver_enable ui.screensaver true,
    Call.screensaver_free ui.screensaver,
    Call.gst_object_unref engine.player ]

/-! ## `process_args` -/

/-- What `process_args` hands back: its calls, the returned `GList *`, and the
values left in the variables it was given pointers to. -/
structure ArgsResult where
  trace : List Call
  uri_list : GList
  flags : Flags

/-- The loop `for (c = 0; recent[c] != NULL; c++)` printing the history,
started at counter `c`.  The counter is a `guint`; it does not wrap for an
array of fewer than `2^32` entries. -/
def print_recent : Nat → List String → List Call
  | _, [] => []
  | c, uri :: rest =>
    (if c < 9 then
      Call.g_print "0%d: %s \n" [PrintArg.int (c + 1), PrintArg.str uri]
    else
      Call.g_print "%d: %s \n" [PrintArg.int (c + 1), PrintArg.str uri])
    :: print_recent (c + 1) rest

/-- The loop `for (index = 1; index < argc; index++)` over the tokens that are
left to visit, with the list built so far; `g_list_append` adds at the end.
The counter `pos` of the loop is never read. -/
def add_files (w : World) : List String → GList → List Call × GList
  | [], uri_list => ([], uri_list)
  | tok :: rest, uri_list =>
    let r := add_files w rest (uri_list ++ [w.clean_uri tok])
    (Call.g_print "Adding file: %s\n" [PrintArg.str tok] :: Call.clean_uri tok :: r.1, r.2)

/-- An option of kind `G_OPTION_ARG_NONE` stores `TRUE` when it is given and
leaves the variable alone otherwise. -/
def store_flag (old given : Bool) : Bool := old || given

/-- The variables after a successful `g_option_context_parse`. -/
def store_options (flags : Flags) (p : Parsed) : Flags :=
  { blind := store_flag flags.blind p.blind,
    fullscreen := store_flag flags.fullscreen p.fullscreen,
    hide := store_flag flags.hide p.hide,
    loop := store_flag flags.loop p.loop,
    secret := store_flag flags.secret p.secret,
    suburi := match p.suburi with
      | some path => some path
      | none => flags.suburi,
    tags := store_flag flags.tags p.tags }

/-- The calls that register the option table and the option groups. -/
def register_options : List Call :=
  [ Call.g_option_context_add_main_entries,
    Call.gst_init_get_option_group,
    Call.g_option_context_add_group,
    Call.clutter_get_option_group,
    Call.g_option_context_add_group ]

/-- The function `process_args (argc, argv, &blind, ..., context)`. -/
def process_args (w : World) (argv : List String) (flags : Flags) : ArgsResult :=
  let pre := register_options ++ [Call.g_option_context_parse argv]
  -- Check command arguments and update entry variables
  match w.g_option_context_parse argv with
  | Except.error message =>
    { trace := pre ++ [Call.g_print "Error initializing: %s\n" [PrintArg.str message],
                       Call.g_error_free],
      uri_list := [],
      flags := flags }
  | Except.ok p =>
    let flags1 := store_options flags p
    -- Recently viewed uris
    if p.recent then
      match w.get_recently_viewed with
      | some recent =>
        { trace := pre ++ [Call.get_recently_viewed,
                           Call.g_print "These are the recently viewed URIs: \n\n" []]
                       ++ print_recent 0 recent,
          uri_list := [],
          flags := flags1 }
      | none =>
        { trace := pre ++ [Call.get_recently_viewed,
                           Call.g_print "ERROR: Can't find history of recently viewed URIs\n" []],
          uri_list := [],
          flags := flags1 }
    -- Show snappy's version
    else if p.version then
      { trace := pre ++ [Call.g_print "snappy version %s\n" [PrintArg.str VERSION]],
        uri_list := [],
        flags := flags1 }
    -- Check that at least one URI has been introduced
    else if p.argv.length > 1 then
      -- Save uris in the file glist
      let r := add_files w (p.argv.drop 1) []
      { trace := pre ++ r.1, uri_list := r.2, flags := flags1 }
    else
      -- If no files passed by user display help
      { trace := pre ++ [Call.g_print "Opening snappy without content.\n\n" [],
                         Call.g_option_context_get_help,
                         Call.g_print "%s" [PrintArg.str w.g_option_context_get_help]],
        uri_list := [],
        flags := flags1 }

/-! ## `main` -/

/-- How a run of `main` ends: it returns a value, or it reaches an operation
whose behaviour C leaves undefined (an uninitialised pointer is read, or
`sprintf` is given more than its buffer holds). -/
inductive Exit where
  | returned (ret : Int)
  | undefined
  deriving DecidableEq, Repr

/-- What a run of `main` leaves behind: the calls made, how it ends, and the
list, option variables and structures it built on the way. -/
structure Run where
  trace : List Call
  exit : Exit
  /-- The list returned by `process_args`; empty when `process_args` was not
  reached. -/
  uri_list : GList
  /-- The option variables as `process_args` left them. -/
  flags : Flags
  /-- The structure `ui`, once `main` has filled it. -/
  ui : Option UserInterface
  /-- The structure `engine`, once `engine_init` has succeeded. -/
  engine : Option GstEngine

/-- The values of `main`'s option variables at their declaration. -/
def initial_flags : Flags :=
  { blind := false, fullscreen := false, hide := false, loop := false,
    secret := false, suburi := none, tags := false }

/-- The call `sprintf (suburi_path_guessing, "%s.srt", uri_no_extension)`:
the string left in the buffer, or `none` when the call is undefined, that is
when the `%s` argument is `NULL` or when the output and its terminating zero
byte do not fit in the `SUBURI_BUFFER_SIZE` bytes of the buffer. -/
def sprintf_srt (uri_no_extension : Option String) : Option String :=
  match uri_no_extension with
  | none => none
  | some s =>
    if (s ++ ".srt").utf8ByteSize + 1 ≤ SUBURI_BUFFER_SIZE then some (s ++ ".srt") else none

/-- The outcome of the block `if (uri_list) { ... }` of `main`. -/
structure UriChoice where
  trace : List Call
  /-- Whether the block ran without undefined behaviour. -/
  defined : Bool
  uri : Option String
  suburi : Option String

/-- The block "Get uri to load" of `main`: the first element of the list and,
when no subtitle was given, the guess of a sibling `.srt` file. -/
def get_uri (w : World) (uri_list : GList) (suburi : Option String) : UriChoice :=
  match uri_list with
  | [] => { trace := [], defined := true, uri := none, suburi := suburi }
  | first :: _ =>
    -- based on video filename we can guess subtitle file (.srt files only)
    match suburi with
    | some path => { trace := [], defined := true, uri := first, suburi := some path }
    | none =>
      let uri_no_extension := w.strip_filename_extension first
      match sprintf_srt uri_no_extension with
      | none =>
        { trace := [Call.strip_filename_extension first],
          defined := false, uri := first, suburi := none }
      | some suburi_path_guessing =>
        let filename := w.g_filename_from_uri suburi_path_guessing
        { trace := [Call.strip_filename_extension first,
                    Call.g_filename_from_uri suburi_path_guessing,
                    Call.g_file_test filename FileTest.EXISTS],
          defined := true,
          uri := first,
          -- subtitle file exists, defaults for it
          suburi := if w.g_file_test filename FileTest.EXISTS then some suburi_path_guessing
                    else none }

/-- The block "Load subtitle file if available" of `main`. -/
def load_subtitle (w : World) (engine : GstEngine) (suburi : Option String) : List Call :=
  match suburi with
  | some s => [Call.clean_uri s, Call.set_subtitle_uri engine (w.clean_uri s)]
  | none => []

/-- The block "Start playing if we have a URI to play" of `main`. -/
def start_playing (engine : GstEngine) (uri : Option String) : List Call :=
  match uri with
  | some _ => [Call.change_state engine "Paused", Call.change_state engine "Playing"]
  | none => []

/-- The structure `ui` as `main` fills it before `interface_init`. -/
def new_ui (w : World) (uri_list : GList) (flags : Flags) : UserInterface :=
  { uri_list := uri_list, blind := flags.blind, fullscreen := flags.fullscreen,
    hide := flags.hide, tags := flags.tags, data_dir := w.SNAPPY_DATA_DIR,
    screensaver := w.screensaver, engine := none, texture := none }

/-- The structure `engine` after `engine_init` and the two stores
`engine->secret = secret; engine->loop = loop;`. -/
def new_engine (w : World) (flags : Flags) : GstEngine :=
  { secret := flags.secret, loop := flags.loop, player := w.player, bus := w.bus }

/-- The structure `ui` after `ui->engine = engine; ui->texture = video_texture;`. -/
def wired_ui (w : World) (uri_list : GList) (flags : Flags) : UserInterface :=
  { new_ui w uri_list flags with
    engine := some (new_engine w flags), texture := some w.texture }

/-- The calls compiled in under `ENABLE_DBUS` before the main loop. -/
def dlna_start (w : World) : List Call :=
  if w.ENABLE_DBUS then [Call.load_dlna] else []

/-- The calls compiled in under `ENABLE_DBUS` after `close_down`. -/
def dlna_stop (w : World) : List Call :=
  if w.ENABLE_DBUS then [Call.close_dlna] else []

/-- The calls of `main` up to and including `gtk_clutter_init`. -/
def toolkit_calls (argv : List String) : List Call :=
  [ Call.g_option_context_new "<media file> - Play movie files",
    Call.clutter_set_windowing_backend,
    Call.gtk_clutter_init argv ]

/-- The calls of `main` at the label `quit`. -/
def quit_calls (uri_list : Option GList) : List Call :=
  [Call.g_list_free uri_list, Call.g_option_context_free]

/-- The calls of `main` between a successful `engine_init` and the main
loop, given the outcome `choice` of the block "Get uri to load". -/
def pre_loop_calls (w : World) (uri_list : GList) (flags : Flags) (choice : UriChoice) :
    List Call :=
  [ Call.gst_bus_add_watch (new_engine w flags).bus,
    Call.gst_object_unref (new_engine w flags).bus ]
  -- Get uri to load
  ++ choice.trace
  -- Load engine and start interface
  ++ [ Call.engine_load_uri (new_engine w flags) choice.uri,
       Call.interface_start (wired_ui w uri_list flags) choice.uri ]
  -- Load subtitle file if available
  ++ load_subtitle w (new_engine w flags) choice.suburi
  -- Start playing if we have a URI to play
  ++ start_playing (new_engine w flags) choice.uri
  ++ dlna_start w

/-- The calls of `main` after the main loop has returned. -/
def post_loop_calls (w : World) (uri_list : GList) (flags : Flags) : List Call :=
  -- Close snappy
  close_down (wired_ui w uri_list flags) (new_engine w flags)
  ++ dlna_stop w
  -- quit:
  ++ quit_calls (some uri_list)

/-- The part of `main` that follows a successful `engine_init`, from the
stores into `engine` and `ui` to `return ret`: its calls and how it ends. -/
def play_session (w : World) (uri_list : GList) (flags : Flags) : List Call × Exit :=
  let choice := get_uri w uri_list flags.suburi
  if !choice.defined then
    ([ Call.gst_bus_add_watch (new_engine w flags).bus,
       Call.gst_object_unref (new_engine w flags).bus ] ++ choice.trace,
     Exit.undefined)
  else
    (pre_loop_calls w uri_list flags choice
      -- Main loop
      ++ [Call.gtk_main]
      ++ post_loop_calls w uri_list flags,
     Exit.returned 0)

/-- The calls of `main` from the data-directory lookup to the creation of the
video sink, for the argument vector `argv1` left by `gtk_clutter_init`.  On
`G_OS_UNIX` the lookup leaves `data_dir` at `SNAPPY_DATA_DIR` whatever
`g_file_test` answers, because `root_dir` is `NULL`. -/
def startup_calls (w : World) (argv1 : List String) : List Call :=
  [ Call.g_strdup w.SNAPPY_DATA_DIR,
    Call.g_file_test (some w.SNAPPY_DATA_DIR) FileTest.EXISTS_OR_IS_DIR ]
  -- Process command arguments
  ++ (process_args w argv1 initial_flags).trace
  ++ [ Call.gst_init, Call.clutter_gst_init,
       -- User Interface
       Call.interface_init (new_ui w (process_args w argv1 initial_flags).uri_list
         (process_args w argv1 initial_flags).flags),
       -- Gstreamer engine
       Call.clutter_gst_video_sink_new ]

/-- The function `main (argc, argv)`. -/
def main (w : World) (argv : List String) : Run :=
  match w.gtk_clutter_init argv with
  | none =>
    -- goto quit, where `uri_list` has not been given a value yet
    { trace := toolkit_calls argv ++ [Call.g_list_free none], exit := Exit.undefined,
      uri_list := [], flags := initial_flags, ui := none, engine := none }
  | some argv1 =>
    let args := process_args w argv1 initial_flags
    let uri_list := args.uri_list
    let flags := args.flags
    let t3 := toolkit_calls argv ++ startup_calls w argv1
    match w.clutter_gst_video_sink_new with
    | none =>
      -- return FALSE
      { trace := t3 ++ [Call.g_print "ERROR: Failed to create clutter-gst sink element\n" []],
        exit := Exit.returned 0,
        uri_list := uri_list, flags := flags,
        ui := some (new_ui w uri_list flags), engine := none }
    | some _ =>
      let t4 := t3 ++ [Call.g_object_new "CLUTTER_GST_TYPE_CONTENT",
           Call.g_object_new "CLUTTER_TYPE_ACTOR", Call.engine_init]
      if !w.engine_init then
        -- goto quit
        { trace := t4 ++ quit_calls (some uri_list),
          exit := Exit.returned 0,
          uri_list := uri_list, flags := flags,
          ui := some (new_ui w uri_list flags), engine := none }
      else
        let session := play_session w uri_list flags
        { trace := t4 ++ session.1,
          exit := session.2,
          uri_list := uri_list, flags := flags,
          ui := some (wired_ui w uri_list flags), engine := some (new_engine w flags) }

/-! ## Observations on a list of calls -/

/-- The target state when the call is a `change_state`. -/
def requested_state : Call → Option String
  | Call.change_state _ state => some state
  | _ => none

/-- The target states of the `change_state` calls, in order. -/
def state_requests (trace : List Call) : List String :=
  trace.filterMap requested_state

/-- The subtitle URI when the call is a `set_subtitle_uri`. -/
def pushed_subtitle : Call → Option (Option String)
  | Call.set_subtitle_uri _ suburi => some suburi
  | _ => none

/-- The subtitle URIs passed to `set_subtitle_uri`, in order. -/
def subtitle_pushes (trace : List Call) : List (Option String) :=
  trace.filterMap pushed_subtitle

/-- The token when the call is a `clean_uri`. -/
def cleaned_token : Call → Option String
  | Call.clean_uri tok => some tok
  | _ => none

/-- The tokens passed to `clean_uri`, in order. -/
def cleaned_tokens (trace : List Call) : List String :=
  trace.filterMap cleaned_token

/-- The engine when the call is an `add_uri_unfinished`. -/
def saved_engine : Call → Option GstEngine
  | Call.add_uri_unfinished engine => some engine
  | _ => none

/-- The engines passed to `add_uri_unfinished`, in order. -/
def position_saves (trace : List Call) : List GstEngine :=
  trace.filterMap saved_engine

/-- The handle when the call is a `screensaver_free`. -/
def freed_screensaver : Call → Option Nat
  | Call.screensaver_free screensaver => some screensaver
  | _ => none

/-- The handles passed to `screensaver_free`, in order. -/
def screensaver_frees (trace : List Call) : List Nat :=
  trace.filterMap freed_screensaver

/-- Whether a call is one that `close_down` makes on the engine, the
screensaver or the player: `add_uri_unfinished`, `change_state`,
`screensaver_enable`, `screensaver_free`, `gst_object_unref`. -/
def is_teardown : Call → Bool
  | Call.add_uri_unfinished _ => true
  | Call.change_state _ _ => true
  | Call.screensaver_enable _ _ => true
  | Call.screensaver_free _ => true
  | Call.gst_object_unref _ => true
  | _ => false

/-- The calls that follow the first `gtk_main` call. -/
def after_main_loop : List Call → List Call
  | [] => []
  | Call.gtk_main :: rest => rest
  | _ :: rest => after_main_loop rest

/-- The object when the call is a `gst_object_unref`. -/
def unreffed_object : Call → Option Nat
  | Call.gst_object_unref object => some object
  | _ => none

/-- The objects passed to `gst_object_unref`, in order. -/
def object_unrefs (trace : List Call) : List Nat :=
  trace.filterMap unreffed_object

/-- The unit value when the call is `gtk_main`. -/
def main_loop_entry : Call → Option Unit
  | Call.gtk_main => some ()
  | _ => none

/-- One entry per `gtk_main` call. -/
def loop_entries (trace : List Call) : List Unit :=
  trace.filterMap main_loop_entry

/-- Two invocations of `close_down` in succession on the same `ui` and
`engine`; the first leaves both structures as they were. -/
def close_down_twice (ui : UserInterface) (engine : GstEngine) : List Call :=
  close_down ui engine ++ close_down ui engine

/-- Whether a call is one that the block "Get uri to load" can make. -/
def is_lookup_call : Call → Bool
  | Call.strip_filename_extension _ => true
  | Call.g_filename_from_uri _ => true
  | Call.g_file_test _ _ => true
  | _ => false

/-- Whether a call is none of: a call that `close_down` makes on the engine,
the screensaver or the player, a `set_subtitle_uri`, the main loop. -/
def is_quiet : Call → Bool
  | Call.set_subtitle_uri _ _ => false
  | Call.gtk_main => false
  | c => !is_teardown c

/-- Whether a call is one that `process_args` can make. -/
def is_args_call : Call → Bool
  | Call.g_print _ _ => true
  | Call.g_option_context_add_main_entries => true
  | Call.gst_init_get_option_group => true
  | Call.clutter_get_option_group => true
  | Call.g_option_context_add_group => true
  | Call.g_option_context_parse _ => true
  | Call.g_error_free => true
  | Call.get_recently_viewed => true
  | Call.clean_uri _ => true
  | Call.g_option_context_get_help => true
  | _ => false

/-! ## Sample collaborators

Concrete answers of the collaborators, used to run the definitions. -/

/-- A small option parser in the manner of `g_option_context_parse`: it knows
the long options of the table, takes the token after `--subtitles` as its
argument, rejects any other token starting with a dash and keeps the remaining
tokens in order. -/
def sample_parse_from : List String → Parsed → Except String Parsed
  | [], p => Except.ok p
  | tok :: rest, p =>
    if tok = "--blind" then sample_parse_from rest { p with blind := true }
    else if tok = "--fullscreen" then sample_parse_from rest { p with fullscreen := true }
    else if tok = "--hide-controls" then sample_parse_from rest { p with hide := true }
    else if tok = "--loop" then sample_parse_from rest { p with loop := true }
    else if tok = "--media-info" then sample_parse_from rest { p with tags := true }
    else if tok = "--recent" then sample_parse_from rest { p with recent := true }
    else if tok = "--secret" then sample_parse_from rest { p with secret := true }
    else if tok = "--version" then sample_parse_from rest { p with version := true }
    else if tok = "--subtitles" then
      match rest with
      | [] => Except.error "Missing argument for --subtitles"
      | path :: rest2 => sample_parse_from rest2 { p with suburi := some path }
    else if tok.data.take 1 = ['-'] then Except.error ("Unknown option " ++ tok)
    else sample_parse_from rest { p with argv := p.argv ++ [tok] }

/-- The sample parser applied to an argument vector: `argv[0]` is kept. -/
def sample_parse (argv : List String) : Except String Parsed :=
  sample_parse_from (argv.drop 1)
    { blind := false, fullscreen := false, hide := false, loop := false, tags := false,
      recent := false, secret := false, suburi := none, version := false,
      argv := argv.take 1 }

/-- A world in which every initialisation succeeds, two URIs are in the
history, `clean_uri` prefixes `file://` (and gives `NULL` for the empty
token), `strip_filename_extension` drops a final `.mp4`, and the only file on
disk is `/v/movie.srt`. -/
def sample_world : World :=
  { SNAPPY_DATA_DIR := "/usr/share/snappy",
    ENABLE_DBUS := false,
    gtk_clutter_init := fun argv => some argv,
    g_option_context_parse := sample_parse,
    get_recently_viewed := some ["file:///v/a.mp4", "file:///v/b.mp4"],
    g_option_context_get_help := "Usage:
  snappy [OPTION...] <media file> - Play movie files
",
    clean_uri := fun tok =>
      if tok = "" then none
      else if tok.data.take 7 = "file://".data then some tok
      else some ("file://" ++ tok),
    strip_filename_extension := fun filename =>
      match filename with
      | none => none
      | some s =>
        if s.data.drop (s.data.length - 4) = ".mp4".data
        then some (String.mk (s.data.take (s.data.length - 4)))
        else some s,
    g_filename_from_uri := fun uri =>
      if uri.data.take 7 = "file://".data then some (String.mk (uri.data.drop 7)) else none,
    g_file_test := fun filename _ => filename = some "/v/movie.srt",
    clutter_gst_video_sink_new := some 10,
    engine_init := true,
    player := 20,
    bus := 21,
    screensaver := 30,
    texture := 40 }

/-- The sample world in which `engine_init` fails. -/
def engine_failure_world : World := { sample_world with engine_init := false }

/-- The sample world in which `clutter_gst_video_sink_new` gives `NULL`. -/
def sink_failure_world : World := { sample_world with clutter_gst_video_sink_new := none }

/-- A path of 1105 bytes: a slash, 1100 letters and the extension `.mp4`. -/
def long_token : String := String.mk ('/' :: List.replicate 1100 'a') ++ ".mp4"

/-- The path `long_token` as a URI without its extension: 1108 bytes. -/
def long_uri_no_extension : String := String.mk ("file:///".data ++ List.replicate 1100 'a')

set_option maxRecDepth 100000

/-! ## Lemmas on lists of calls -/

theorem filterMap_eq_nil_of_none {α β : Type} (f : α → Option β) (l : List α)
    (h : ∀ x ∈ l, f x = none) : l.filterMap f = [] := by
  induction l with
  | nil => rfl
  | cons x rest ih =>
    have hx : f x = none := h x (List.mem_cons_self x rest)
    have hrest : ∀ y ∈ rest, f y = none := fun y hy => h y (List.mem_cons_of_mem x hy)
    simp [List.filterMap_cons, hx, ih hrest]

theorem after_main_loop_append (pre post : List Call) (h : Call.gtk_main ∉ pre) :
    after_main_loop (pre ++ Call.gtk_main :: post) = post := by
  induction pre with
  | nil => rfl
  | cons x rest ih =>
    have hx : x ≠ Call.gtk_main := fun e => h (e ▸ List.mem_cons_self x rest)
    have hrest : Call.gtk_main ∉ rest := fun m => h (List.mem_cons_of_mem x m)
    cases x <;> first | exact absurd rfl hx | simpa [after_main_loop] using ih hrest

/-! ## Lemmas on `process_args` -/

theorem add_files_uri_list (w : World) (toks : List String) (acc : GList) :
    (add_files w toks acc).2 = acc ++ toks.map w.clean_uri := by
  induction toks generalizing acc with
  | nil => simp [add_files]
  | cons tok rest ih => simp [add_files, ih]

theorem cleaned_tokens_append (xs ys : List Call) :
    cleaned_tokens (xs ++ ys) = cleaned_tokens xs ++ cleaned_tokens ys := by
  simp [cleaned_tokens, List.filterMap_append]

theorem add_files_cleaned (w : World) (toks : List String) (acc : GList) :
    cleaned_tokens (add_files w toks acc).1 = toks := by
  induction toks generalizing acc with
  | nil => simp [add_files, cleaned_tokens]
  | cons tok rest ih =>
    have h := ih (acc ++ [w.clean_uri tok])
    simp only [cleaned_tokens] at h
    simp [add_files, cleaned_tokens, cleaned_token, List.filterMap_cons, h]

theorem add_files_is_args_call (w : World) (toks : List String) (acc : GList) :
    ∀ x ∈ (add_files w toks acc).1, is_args_call x = true := by
  induction toks generalizing acc with
  | nil => simp [add_files]
  | cons tok rest ih =>
    intro x hx
    simp only [add_files, List.mem_cons] at hx
    rcases hx with hx | hx | hx
    · rw [hx]; rfl
    · rw [hx]; rfl
    · exact ih _ x hx

/-- Every call of the history loop is a `g_print` with one of its two
formats. -/
theorem print_recent_formats (c : Nat) (recent : List String) (x : Call)
    (hx : x ∈ print_recent c recent) :
    ∃ args, x = Call.g_print "0%d: %s \n" args ∨ x = Call.g_print "%d: %s \n" args := by
  induction recent generalizing c with
  | nil => simp [print_recent] at hx
  | cons uri rest ih =>
    simp only [print_recent, List.mem_cons] at hx
    rcases hx with hx | hx
    · by_cases hc : c < 9
      · exact ⟨_, Or.inl (by simpa [hc] using hx)⟩
      · exact ⟨_, Or.inr (by simpa [hc] using hx)⟩
    · exact ih (c + 1) hx

theorem print_recent_is_args_call (c : Nat) (recent : List String) :
    ∀ x ∈ print_recent c recent, is_args_call x = true := by
  intro x hx
  obtain ⟨args, h | h⟩ := print_recent_formats c recent x hx <;> rw [h] <;> rfl

/-- Every call of `process_args` is a print, an option-context call, a
history query or a `clean_uri`. -/
theorem process_args_is_args_call (w : World) (argv : List String) (flags : Flags) :
    ∀ x ∈ (process_args w argv flags).trace, is_args_call x = true := by
  intro x hx
  unfold process_args at hx
  have hreg : ∀ y ∈ register_options, is_args_call y = true := by
    intro y hy
    simp [register_options] at hy
    rcases hy with h | h | h | h | h <;> rw [h] <;> rfl
  split at hx
  · simp only [List.mem_append, List.mem_cons, List.mem_singleton, List.not_mem_nil,
      or_false] at hx
    rcases hx with (h | h) | h | h
    · exact hreg x h
    · rw [h]; rfl
    · rw [h]; rfl
    · rw [h]; rfl
  · split at hx
    · split at hx
      · simp only [List.mem_append, List.mem_cons, List.mem_singleton, List.not_mem_nil,
          or_false] at hx
        rcases hx with ((h | h) | h | h) | h
        · exact hreg x h
        · rw [h]; rfl
        · rw [h]; rfl
        · rw [h]; rfl
        · exact print_recent_is_args_call _ _ x h
      · simp only [List.mem_append, List.mem_cons, List.mem_singleton, List.not_mem_nil,
          or_false] at hx
        rcases hx with (h | h) | h | h
        · exact hreg x h
        · rw [h]; rfl
        · rw [h]; rfl
        · rw [h]; rfl
    · split at hx
      · simp only [List.mem_append, List.mem_cons, List.mem_singleton, List.not_mem_nil,
          or_false] at hx
        rcases hx with (h | h) | h
        · exact hreg x h
        · rw [h]; rfl
        · rw [h]; rfl
      · split at hx
        · simp only [List.mem_append, List.mem_cons, List.mem_singleton, List.not_mem_nil,
            or_false] at hx
          rcases hx with (h | h) | h
          · exact hreg x h
          · rw [h]; rfl
          · exact add_files_is_args_call _ _ _ x h
        · simp only [List.mem_append, List.mem_cons, List.mem_singleton, List.not_mem_nil,
            or_false] at hx
          rcases hx with (h | h) | h | h | h
          · exact hreg x h
          · rw [h]; rfl
          · rw [h]; rfl
          · rw [h]; rfl
          · rw [h]; rfl

/-- The trace of `process_args` when `--recent` is given. -/
theorem process_args_recent_trace (w : World) (argv : List String) (flags : Flags) (p : Parsed)
    (hparse : w.g_option_context_parse argv = Except.ok p) (hrecent : p.recent = true) :
    (process_args w argv flags).trace
      = register_options ++ [Call.g_option_context_parse argv, Call.get_recently_viewed]
        ++ (match w.get_recently_viewed with
            | some recent =>
              Call.g_print "These are the recently viewed URIs: \n\n" []
                :: print_recent 0 recent
            | none =>
              [Call.g_print "ERROR: Can't find history of recently viewed URIs\n" []]) := by
  cases h : w.get_recently_viewed <;> simp [process_args, hparse, hrecent, h]

/-- With `--recent` no call of `process_args` prints with the format of the
version line. -/
theorem process_args_recent_no_version_line (w : World) (argv : List String) (flags : Flags)
    (p : Parsed) (hparse : w.g_option_context_parse argv = Except.ok p)
    (hrecent : p.recent = true) (args : List PrintArg) :
    Call.g_print "snappy version %s\n" args ∉ (process_args w argv flags).trace := by
  rw [process_args_recent_trace w argv flags p hparse hrecent]
  intro hmem
  cases h : w.get_recently_viewed with
  | none =>
    rw [h] at hmem
    simp [register_options] at hmem
  | some recent =>
    rw [h] at hmem
    simp [register_options] at hmem
    obtain ⟨a, ha | ha⟩ := print_recent_formats 0 recent _ hmem
    · simp at ha
    · simp at ha

/-- With `--recent` `process_args` neither asks for the help text nor prints
it. -/
theorem process_args_recent_no_help (w : World) (argv : List String) (flags : Flags)
    (p : Parsed) (hparse : w.g_option_context_parse argv = Except.ok p)
    (hrecent : p.recent = true) :
    Call.g_option_context_get_help ∉ (process_args w argv flags).trace
    ∧ ∀ args, Call.g_print "%s" args ∉ (process_args w argv flags).trace := by
  rw [process_args_recent_trace w argv flags p hparse hrecent]
  constructor
  · intro hmem
    cases h : w.get_recently_viewed with
    | none =>
      rw [h] at hmem
      simp [register_options] at hmem
    | some recent =>
      rw [h] at hmem
      simp [register_options] at hmem
      obtain ⟨a, ha | ha⟩ := print_recent_formats 0 recent _ hmem <;> simp at ha
  · intro args hmem
    cases h : w.get_recently_viewed with
    | none =>
      rw [h] at hmem
      simp [register_options] at hmem
    | some recent =>
      rw [h] at hmem
      simp [register_options] at hmem
      obtain ⟨a, ha | ha⟩ := print_recent_formats 0 recent _ hmem <;> simp at ha

/-- With `--recent` `process_args` makes no `clean_uri` call. -/
theorem process_args_recent_no_clean (w : World) (argv : List String) (flags : Flags)
    (p : Parsed) (hparse : w.g_option_context_parse argv = Except.ok p)
    (hrecent : p.recent = true) (tok : String) :
    Call.clean_uri tok ∉ (process_args w argv flags).trace := by
  rw [process_args_recent_trace w argv flags p hparse hrecent]
  intro hmem
  cases h : w.get_recently_viewed with
  | none =>
    rw [h] at hmem
    simp [register_options] at hmem
  | some recent =>
    rw [h] at hmem
    simp [register_options] at hmem
    obtain ⟨a, ha | ha⟩ := print_recent_formats 0 recent _ hmem <;> simp at ha

/-! ## Lemmas on `main` -/

theorem quiet_observers (x : Call) (h : is_quiet x = true) :
    requested_state x = none ∧ saved_engine x = none ∧ freed_screensaver x = none
    ∧ unreffed_object x = none ∧ pushed_subtitle x = none ∧ x ≠ Call.gtk_main
    ∧ is_teardown x = false := by
  cases x <;> simp [is_quiet, is_teardown] at h <;>
    simp [requested_state, saved_engine, freed_screensaver, unreffed_object,
      pushed_subtitle, is_teardown]

theorem args_call_quiet (x : Call) (h : is_args_call x = true) : is_quiet x = true := by
  cases x <;> first | rfl | simp [is_args_call] at h

theorem lookup_call_quiet (x : Call) (h : is_lookup_call x = true) : is_quiet x = true := by
  cases x <;> first | rfl | simp [is_lookup_call] at h

theorem get_uri_is_lookup_call (w : World) (uri_list : GList) (suburi : Option String) :
    ∀ x ∈ (get_uri w uri_list suburi).trace, is_lookup_call x = true := by
  intro x hx
  cases uri_list with
  | nil => simp [get_uri] at hx
  | cons first rest =>
    cases suburi with
    | some path => simp [get_uri] at hx
    | none =>
      cases h : sprintf_srt (w.strip_filename_extension first) with
      | none =>
        simp [get_uri, h] at hx
        rw [hx]; rfl
      | some guess =>
        simp [get_uri, h] at hx
        rcases hx with h1 | h1 | h1 <;> rw [h1] <;> rfl

theorem get_uri_uri (w : World) (uri_list : GList) (suburi : Option String) :
    (get_uri w uri_list suburi).uri = uri_list.headD none := by
  cases uri_list with
  | nil => rfl
  | cons first rest =>
    cases suburi with
    | some path => rfl
    | none =>
      cases h : sprintf_srt (w.strip_filename_extension first) <;> simp [get_uri, h]

/-- The calls of `main` up to `engine_init` are quiet. -/
theorem launch_calls_quiet (w : World) (argv argv1 : List String) :
    ∀ x ∈ toolkit_calls argv ++ startup_calls w argv1, is_quiet x = true := by
  intro x hx
  simp only [toolkit_calls, startup_calls, List.mem_append, List.mem_cons,
    List.mem_singleton, List.not_mem_nil, or_false] at hx
  rcases hx with (h | h | h) | ((h | h) | h) | h | h | h | h
  · rw [h]; rfl
  · rw [h]; rfl
  · rw [h]; rfl
  · rw [h]; rfl
  · rw [h]; rfl
  · exact args_call_quiet x (process_args_is_args_call _ _ _ x h)
  · rw [h]; rfl
  · rw [h]; rfl
  · rw [h]; rfl
  · rw [h]; rfl

theorem toolkit_calls_quiet (w : World) (argv argv1 : List String) :
    ∀ x ∈ toolkit_calls argv, is_quiet x = true :=
  fun x hx => launch_calls_quiet w argv argv1 x (List.mem_append_left _ hx)

theorem startup_calls_quiet (w : World) (argv argv1 : List String) :
    ∀ x ∈ startup_calls w argv1, is_quiet x = true :=
  fun x hx => launch_calls_quiet w argv argv1 x (List.mem_append_right _ hx)

theorem main_toolkit_failure (w : World) (argv : List String)
    (hgtk : w.gtk_clutter_init argv = none) :
    (main w argv).trace = toolkit_calls argv ++ [Call.g_list_free none]
    ∧ (main w argv).exit = Exit.undefined
    ∧ (main w argv).uri_list = [] := by
  simp [main, hgtk]

theorem main_sink_failure (w : World) (argv argv1 : List String)
    (hgtk : w.gtk_clutter_init argv = some argv1)
    (hsink : w.clutter_gst_video_sink_new = none) :
    (main w argv).trace = toolkit_calls argv ++ startup_calls w argv1
        ++ [Call.g_print "ERROR: Failed to create clutter-gst sink element\n" []]
    ∧ (main w argv).exit = Exit.returned 0
    ∧ (main w argv).uri_list = (process_args w argv1 initial_flags).uri_list
    ∧ (main w argv).flags = (process_args w argv1 initial_flags).flags := by
  simp [main, hgtk, hsink]

theorem main_engine_failure (w : World) (argv argv1 : List String) (sink : Nat)
    (hgtk : w.gtk_clutter_init argv = some argv1)
    (hsink : w.clutter_gst_video_sink_new = some sink)
    (hengine : w.engine_init = false) :
    (main w argv).trace = toolkit_calls argv ++ startup_calls w argv1
        ++ [Call.g_object_new "CLUTTER_GST_TYPE_CONTENT",
           Call.g_object_new "CLUTTER_TYPE_ACTOR", Call.engine_init]
        ++ quit_calls (some (process_args w argv1 initial_flags).uri_list)
    ∧ (main w argv).exit = Exit.returned 0
    ∧ (main w argv).uri_list = (process_args w argv1 initial_flags).uri_list
    ∧ (main w argv).flags = (process_args w argv1 initial_flags).flags := by
  simp [main, hgtk, hsink, hengine]

theorem main_started (w : World) (argv argv1 : List String) (sink : Nat)
    (hgtk : w.gtk_clutter_init argv = some argv1)
    (hsink : w.clutter_gst_video_sink_new = some sink)
    (hengine : w.engine_init = true) :
    (main w argv).trace = toolkit_calls argv ++ startup_calls w argv1
        ++ [Call.g_object_new "CLUTTER_GST_TYPE_CONTENT",
           Call.g_object_new "CLUTTER_TYPE_ACTOR", Call.engine_init]
        ++ (play_session w (process_args w argv1 initial_flags).uri_list
              (process_args w argv1 initial_flags).flags).1
    ∧ (main w argv).exit = (play_session w (process_args w argv1 initial_flags).uri_list
              (process_args w argv1 initial_flags).flags).2
    ∧ (main w argv).uri_list = (process_args w argv1 initial_flags).uri_list
    ∧ (main w argv).flags = (process_args w argv1 initial_flags).flags := by
  simp [main, hgtk, hsink, hengine]

theorem play_session_undefined (w : World) (uri_list : GList) (flags : Flags)
    (hdef : (get_uri w uri_list flags.suburi).defined = false) :
    play_session w uri_list flags
      = ([ Call.gst_bus_add_watch (new_engine w flags).bus,
           Call.gst_object_unref (new_engine w flags).bus ]
          ++ (get_uri w uri_list flags.suburi).trace, Exit.undefined) := by
  simp [play_session, hdef]

theorem play_session_defined (w : World) (uri_list : GList) (flags : Flags)
    (hdef : (get_uri w uri_list flags.suburi).defined = true) :
    play_session w uri_list flags
      = (pre_loop_calls w uri_list flags (get_uri w uri_list flags.suburi)
          ++ [Call.gtk_main] ++ post_loop_calls w uri_list flags, Exit.returned 0) := by
  simp [play_session, hdef]

theorem filterMap_quiet {β : Type} (f : Call → Option β)
    (hf : ∀ x, is_quiet x = true → f x = none) (l : List Call)
    (hl : ∀ x ∈ l, is_quiet x = true) : l.filterMap f = [] :=
  filterMap_eq_nil_of_none f l (fun x hx => hf x (hl x hx))

theorem dlna_start_quiet (w : World) : ∀ x ∈ dlna_start w, is_quiet x = true := by
  intro x hx
  unfold dlna_start at hx
  split at hx
  · simp at hx
    rw [hx]; rfl
  · simp at hx

theorem dlna_stop_quiet (w : World) : ∀ x ∈ dlna_stop w, is_quiet x = true := by
  intro x hx
  unfold dlna_stop at hx
  split at hx
  · simp at hx
    rw [hx]; rfl
  · simp at hx

theorem get_uri_quiet (w : World) (uri_list : GList) (suburi : Option String) :
    ∀ x ∈ (get_uri w uri_list suburi).trace, is_quiet x = true :=
  fun x hx => lookup_call_quiet x (get_uri_is_lookup_call w uri_list suburi x hx)

/-- What an observation that ignores quiet calls sees of a run of `main` in
which `gtk_clutter_init` fails. -/
theorem main_observe_toolkit_failure {β : Type} (f : Call → Option β)
    (hf : ∀ x, is_quiet x = true → f x = none) (w : World) (argv : List String)
    (hgtk : w.gtk_clutter_init argv = none) :
    (main w argv).trace.filterMap f = [] := by
  rw [(main_toolkit_failure w argv hgtk).1]
  apply filterMap_quiet f hf
  intro x hx
  simp [toolkit_calls] at hx
  rcases hx with h | h | h | h <;> rw [h] <;> rfl

/-- What an observation that ignores quiet calls sees of a run of `main` in
which no video sink can be created. -/
theorem main_observe_sink_failure {β : Type} (f : Call → Option β)
    (hf : ∀ x, is_quiet x = true → f x = none) (w : World) (argv argv1 : List String)
    (hgtk : w.gtk_clutter_init argv = some argv1)
    (hsink : w.clutter_gst_video_sink_new = none) :
    (main w argv).trace.filterMap f = [] := by
  rw [(main_sink_failure w argv argv1 hgtk hsink).1]
  apply filterMap_quiet f hf
  intro x hx
  rw [List.mem_append] at hx
  rcases hx with h | h
  · exact launch_calls_quiet w argv argv1 x h
  · simp at h
    rw [h]; rfl

/-- What an observation that ignores quiet calls sees of a run of `main` in
which `engine_init` fails. -/
theorem main_observe_engine_failure {β : Type} (f : Call → Option β)
    (hf : ∀ x, is_quiet x = true → f x = none) (w : World) (argv argv1 : List String)
    (sink : Nat) (hgtk : w.gtk_clutter_init argv = some argv1)
    (hsink : w.clutter_gst_video_sink_new = some sink)
    (hengine : w.engine_init = false) :
    (main w argv).trace.filterMap f = [] := by
  rw [(main_engine_failure w argv argv1 sink hgtk hsink hengine).1]
  apply filterMap_quiet f hf
  intro x hx
  rw [List.mem_append, List.mem_append] at hx
  rcases hx with (h | h) | h
  · exact launch_calls_quiet w argv argv1 x h
  · simp at h
    rcases h with h | h | h <;> rw [h] <;> rfl
  · simp [quit_calls] at h
    rcases h with h | h <;> rw [h] <;> rfl

/-- What an observation that ignores quiet calls sees of a run of `main` that
stops at the `sprintf` of the subtitle guess. -/
theorem main_observe_undefined {β : Type} (f : Call → Option β)
    (hf : ∀ x, is_quiet x = true → f x = none) (w : World) (argv argv1 : List String)
    (sink : Nat) (hgtk : w.gtk_clutter_init argv = some argv1)
    (hsink : w.clutter_gst_video_sink_new = some sink)
    (hengine : w.engine_init = true)
    (hdef : (get_uri w (process_args w argv1 initial_flags).uri_list
      (process_args w argv1 initial_flags).flags.suburi).defined = false) :
    (main w argv).trace.filterMap f = [Call.gst_object_unref w.bus].filterMap f := by
  rw [(main_started w argv argv1 sink hgtk hsink hengine).1,
    play_session_undefined w _ _ hdef]
  simp only [List.filterMap_append]
  rw [filterMap_quiet f hf _ (toolkit_calls_quiet w argv argv1),
    filterMap_quiet f hf _ (startup_calls_quiet w argv argv1),
    filterMap_quiet f hf _ (get_uri_quiet w _ _)]
  have h1 : ∀ t, f (Call.g_object_new t) = none := fun t => hf _ rfl
  have h2 : f Call.engine_init = none := hf _ rfl
  have h3 : ∀ b, f (Call.gst_bus_add_watch b) = none := fun b => hf _ rfl
  simp [List.filterMap_cons, h1, h2, h3, new_engine]

/-- What an observation that ignores quiet calls sees of a run of `main` that
enters the main loop. -/
theorem main_observe_started {β : Type} (f : Call → Option β)
    (hf : ∀ x, is_quiet x = true → f x = none) (w : World) (argv argv1 : List String)
    (sink : Nat) (hgtk : w.gtk_clutter_init argv = some argv1)
    (hsink : w.clutter_gst_video_sink_new = some sink)
    (hengine : w.engine_init = true)
    (hdef : (get_uri w (process_args w argv1 initial_flags).uri_list
      (process_args w argv1 initial_flags).flags.suburi).defined = true) :
    (main w argv).trace.filterMap f
      = [Call.gst_object_unref w.bus].filterMap f
        ++ (load_subtitle w (new_engine w (main w argv).flags)
              (get_uri w (main w argv).uri_list (main w argv).flags.suburi).suburi).filterMap f
        ++ (start_playing (new_engine w (main w argv).flags)
              ((main w argv).uri_list.headD none)).filterMap f
        ++ [Call.gtk_main].filterMap f
        ++ (close_down (wired_ui w (main w argv).uri_list (main w argv).flags)
              (new_engine w (main w argv).flags)).filterMap f := by
  obtain ⟨ht, _, hu, hfl⟩ := main_started w argv argv1 sink hgtk hsink hengine
  rw [ht, hu, hfl, play_session_defined w _ _ hdef]
  simp only [pre_loop_calls, post_loop_calls, List.filterMap_append]
  rw [filterMap_quiet f hf _ (toolkit_calls_quiet w argv argv1),
    filterMap_quiet f hf _ (startup_calls_quiet w argv argv1),
    filterMap_quiet f hf _ (get_uri_quiet w _ _),
    filterMap_quiet f hf _ (dlna_start_quiet w),
    filterMap_quiet f hf _ (dlna_stop_quiet w), get_uri_uri]
  have h1 : ∀ t, f (Call.g_object_new t) = none := fun t => hf _ rfl
  have h2 : f Call.engine_init = none := hf _ rfl
  have h3 : ∀ b, f (Call.gst_bus_add_watch b) = none := fun b => hf _ rfl
  have h4 : ∀ e u, f (Call.engine_load_uri e u) = none := fun e u => hf _ rfl
  have h5 : ∀ i u, f (Call.interface_start i u) = none := fun i u => hf _ rfl
  have h6 : ∀ l, f (Call.g_list_free l) = none := fun l => hf _ rfl
  have h7 : f Call.g_option_context_free = none := hf _ rfl
  simp [List.filterMap_cons, h1, h2, h3, h4, h5, h6, h7, new_engine, quit_calls]

theorem quiet_main_loop_entry (x : Call) (h : is_quiet x = true) :
    main_loop_entry x = none := by
  cases x <;> first | rfl | simp [is_quiet] at h

theorem loop_entries_of_mem (l : List Call) (h : Call.gtk_main ∈ l) : loop_entries l ≠ [] := by
  induction l with
  | nil => simp at h
  | cons x rest ih =>
    rcases List.mem_cons.mp h with h1 | h1
    · rw [← h1]
      simp [loop_entries, main_loop_entry]
    · intro hnil
      simp only [loop_entries, List.filterMap_cons] at hnil
      cases hx : main_loop_entry x with
      | none =>
        rw [hx] at hnil
        exact ih h1 hnil
      | some u =>
        rw [hx] at hnil
        simp at hnil

theorem load_subtitle_observe (w : World) (engine : GstEngine) (suburi : Option String) :
    (load_subtitle w engine suburi).filterMap requested_state = []
    ∧ (load_subtitle w engine suburi).filterMap saved_engine = []
    ∧ (load_subtitle w engine suburi).filterMap freed_screensaver = []
    ∧ (load_subtitle w engine suburi).filterMap unreffed_object = []
    ∧ (load_subtitle w engine suburi).filterMap main_loop_entry = [] := by
  cases suburi <;>
    simp [load_subtitle, requested_state, saved_engine, freed_screensaver, unreffed_object,
      main_loop_entry]

theorem start_playing_observe (engine : GstEngine) (uri : Option String) :
    (start_playing engine uri).filterMap requested_state
        = (if uri.isSome then ["Paused", "Playing"] else [])
    ∧ (start_playing engine uri).filterMap saved_engine = []
    ∧ (start_playing engine uri).filterMap freed_screensaver = []
    ∧ (start_playing engine uri).filterMap unreffed_object = []
    ∧ (start_playing engine uri).filterMap main_loop_entry = []
    ∧ (start_playing engine uri).filterMap pushed_subtitle = [] := by
  cases uri <;>
    simp [start_playing, requested_state, saved_engine, freed_screensaver, unreffed_object,
      main_loop_entry, pushed_subtitle]

/-- The `change_state` requests of any run of `main`. -/
theorem main_state_requests_cases (w : World) (argv : List String) :
    (Call.gtk_main ∉ (main w argv).trace ∧ state_requests (main w argv).trace = [])
    ∨ (Call.gtk_main ∈ (main w argv).trace
        ∧ state_requests (main w argv).trace
          = (if ((main w argv).uri_list.headD none).isSome then ["Paused", "Playing"] else [])
            ++ ["Null"]) := by
  have hq : ∀ x, is_quiet x = true → requested_state x = none :=
    fun x h => (quiet_observers x h).1
  have hnot : ∀ l : List Call, loop_entries l = [] → Call.gtk_main ∉ l :=
    fun l hl hm => loop_entries_of_mem l hm hl
  cases hgtk : w.gtk_clutter_init argv with
  | none =>
    exact Or.inl ⟨hnot _ (main_observe_toolkit_failure _ quiet_main_loop_entry w argv hgtk),
      main_observe_toolkit_failure _ hq w argv hgtk⟩
  | some argv1 =>
    cases hsink : w.clutter_gst_video_sink_new with
    | none =>
      exact Or.inl
        ⟨hnot _ (main_observe_sink_failure _ quiet_main_loop_entry w argv argv1 hgtk hsink),
          main_observe_sink_failure _ hq w argv argv1 hgtk hsink⟩
    | some sink =>
      cases hengine : w.engine_init with
      | false =>
        exact Or.inl
          ⟨hnot _ (main_observe_engine_failure _ quiet_main_loop_entry w argv argv1 sink
              hgtk hsink hengine),
            main_observe_engine_failure _ hq w argv argv1 sink hgtk hsink hengine⟩
      | true =>
        cases hdef : (get_uri w (process_args w argv1 initial_flags).uri_list
            (process_args w argv1 initial_flags).flags.suburi).defined with
        | false =>
          refine Or.inl ⟨hnot _ ?_, ?_⟩
          · rw [loop_entries, main_observe_undefined _ quiet_main_loop_entry w argv argv1 sink
              hgtk hsink hengine hdef]
            rfl
          · rw [state_requests, main_observe_undefined _ hq w argv argv1 sink
              hgtk hsink hengine hdef]
            rfl
        | true =>
          refine Or.inr ⟨?_, ?_⟩
          · rw [(main_started w argv argv1 sink hgtk hsink hengine).1,
              play_session_defined w _ _ hdef]
            simp
          · rw [state_requests, main_observe_started _ hq w argv argv1 sink
              hgtk hsink hengine hdef, (load_subtitle_observe _ _ _).1,
              (start_playing_observe _ _).1]
            simp [close_down, requested_state]

/-- A run of `main` that enters the main loop passed every initialisation and
the subtitle guess. -/
theorem main_entered (w : World) (argv : List String)
    (hloop : Call.gtk_main ∈ (main w argv).trace) :
    ∃ argv1 sink, w.gtk_clutter_init argv = some argv1
      ∧ w.clutter_gst_video_sink_new = some sink
      ∧ w.engine_init = true
      ∧ (get_uri w (process_args w argv1 initial_flags).uri_list
          (process_args w argv1 initial_flags).flags.suburi).defined = true := by
  have hentries := loop_entries_of_mem _ hloop
  cases hgtk : w.gtk_clutter_init argv with
  | none =>
    exact absurd (main_observe_toolkit_failure _ quiet_main_loop_entry w argv hgtk) hentries
  | some argv1 =>
    cases hsink : w.clutter_gst_video_sink_new with
    | none =>
      exact absurd (main_observe_sink_failure _ quiet_main_loop_entry w argv argv1 hgtk hsink)
        hentries
    | some sink =>
      cases hengine : w.engine_init with
      | false =>
        exact absurd (main_observe_engine_failure _ quiet_main_loop_entry w argv argv1 sink
          hgtk hsink hengine) hentries
      | true =>
        cases hdef : (get_uri w (process_args w argv1 initial_flags).uri_list
            (process_args w argv1 initial_flags).flags.suburi).defined with
        | false =>
          have h := main_observe_undefined _ quiet_main_loop_entry w argv argv1 sink
            hgtk hsink hengine hdef
          exact absurd h hentries
        | true => exact ⟨argv1, sink, rfl, rfl, rfl, hdef⟩

theorem pre_loop_no_main_loop (w : World) (uri_list : GList) (flags : Flags) :
    Call.gtk_main ∉ pre_loop_calls w uri_list flags (get_uri w uri_list flags.suburi) := by
  intro hmem
  apply loop_entries_of_mem _ hmem
  simp only [loop_entries, pre_loop_calls, List.filterMap_append]
  rw [filterMap_quiet _ quiet_main_loop_entry _ (get_uri_quiet w _ _),
    filterMap_quiet _ quiet_main_loop_entry _ (dlna_start_quiet w),
    (load_subtitle_observe _ _ _).2.2.2.2, (start_playing_observe _ _).2.2.2.2.1]
  simp [main_loop_entry]

/-- The calls that follow the main loop in a run that enters it. -/
theorem main_after_loop (w : World) (argv : List String)
    (hloop : Call.gtk_main ∈ (main w argv).trace) :
    after_main_loop (main w argv).trace
      = post_loop_calls w (main w argv).uri_list (main w argv).flags := by
  obtain ⟨argv1, sink, hgtk, hsink, hengine, hdef⟩ := main_entered w argv hloop
  obtain ⟨ht, _, hu, hfl⟩ := main_started w argv argv1 sink hgtk hsink hengine
  rw [ht, hu, hfl, play_session_defined w _ _ hdef]
  have hpre : Call.gtk_main ∉ toolkit_calls argv ++ startup_calls w argv1
      ++ [Call.g_object_new "CLUTTER_GST_TYPE_CONTENT",
           Call.g_object_new "CLUTTER_TYPE_ACTOR", Call.engine_init]
      ++ pre_loop_calls w (process_args w argv1 initial_flags).uri_list
          (process_args w argv1 initial_flags).flags
          (get_uri w (process_args w argv1 initial_flags).uri_list
            (process_args w argv1 initial_flags).flags.suburi) := by
    intro hmem
    rw [List.mem_append, List.mem_append] at hmem
    rcases hmem with (h | h) | h
    · have hq := launch_calls_quiet w argv argv1 _ h
      simp [is_quiet] at hq
    · simp at h
    · exact pre_loop_no_main_loop w _ _ h
  have happ := after_main_loop_append _
    (post_loop_calls w (process_args w argv1 initial_flags).uri_list
      (process_args w argv1 initial_flags).flags) hpre
  simpa [List.append_assoc] using happ

/-- The variables after `process_args` when the options parse. -/
theorem process_args_flags (w : World) (argv : List String) (flags : Flags) (p : Parsed)
    (hparse : w.g_option_context_parse argv = Except.ok p) :
    (process_args w argv flags).flags = store_options flags p := by
  unfold process_args
  rw [hparse]
  simp only []
  split
  · split <;> rfl
  · split
    · rfl
    · split <;> rfl

/-- The branch of `process_args` that displays the help. -/
theorem process_args_help (w : World) (argv : List String) (flags : Flags) (p : Parsed)
    (hparse : w.g_option_context_parse argv = Except.ok p)
    (hrecent : p.recent = false) (hversion : p.version = false)
    (hargs : p.argv.length ≤ 1) :
    (process_args w argv flags).trace
      = register_options ++ [Call.g_option_context_parse argv,
          Call.g_print "Opening snappy without content.\n\n" [],
          Call.g_option_context_get_help,
          Call.g_print "%s" [PrintArg.str w.g_option_context_get_help]]
    ∧ (process_args w argv flags).uri_list = [] := by
  have hlen : ¬ 1 < p.argv.length := by omega
  simp [process_args, hparse, hrecent, hversion, hlen]

theorem filter_teardown_quiet (l : List Call) (h : ∀ x ∈ l, is_quiet x = true) :
    l.filter is_teardown = [] := by
  induction l with
  | nil => rfl
  | cons x rest ih =>
    have hx : is_teardown x = false :=
      (quiet_observers x (h x (List.mem_cons_self x rest))).2.2.2.2.2.2
    have hrest : ∀ y ∈ rest, is_quiet y = true := fun y hy => h y (List.mem_cons_of_mem x hy)
    simp [List.filter_cons, hx, ih hrest]

/-- Every call of a run of `main` in which `engine_init` fails is quiet. -/
theorem main_engine_failure_quiet (w : World) (argv argv1 : List String) (sink : Nat)
    (hgtk : w.gtk_clutter_init argv = some argv1)
    (hsink : w.clutter_gst_video_sink_new = some sink)
    (hengine : w.engine_init = false) :
    ∀ x ∈ (main w argv).trace, is_quiet x = true := by
  intro x hx
  rw [(main_engine_failure w argv argv1 sink hgtk hsink hengine).1, List.mem_append,
    List.mem_append] at hx
  rcases hx with (h | h) | h
  · exact launch_calls_quiet w argv argv1 x h
  · simp at h
    rcases h with h | h | h <;> rw [h] <;> rfl
  · simp [quit_calls] at h
    rcases h with h | h <;> rw [h] <;> rfl

/-- The `add_uri_unfinished` calls of a run of `main` that enters the main
loop. -/
theorem main_position_saves (w : World) (argv : List String)
    (hloop : Call.gtk_main ∈ (main w argv).trace) :
    position_saves (main w argv).trace = [new_engine w (main w argv).flags] := by
  obtain ⟨argv1, sink, hgtk, hsink, hengine, hdef⟩ := main_entered w argv hloop
  have hq : ∀ x, is_quiet x = true → saved_engine x = none :=
    fun x h => (quiet_observers x h).2.1
  rw [position_saves, main_observe_started _ hq w argv argv1 sink hgtk hsink hengine hdef,
    (load_subtitle_observe _ _ _).2.1, (start_playing_observe _ _).2.1]
  simp [close_down, saved_engine]

/-- The `set_subtitle_uri` calls of a run of `main` that enters the main
loop: one for the value of `suburi` after the block "Get uri to load". -/
theorem main_subtitle_pushes (w : World) (argv : List String)
    (hloop : Call.gtk_main ∈ (main w argv).trace) :
    subtitle_pushes (main w argv).trace
      = match (get_uri w (main w argv).uri_list (main w argv).flags.suburi).suburi with
        | some s => [w.clean_uri s]
        | none => [] := by
  obtain ⟨argv1, sink, hgtk, hsink, hengine, hdef⟩ := main_entered w argv hloop
  have hq : ∀ x, is_quiet x = true → pushed_subtitle x = none :=
    fun x h => (quiet_observers x h).2.2.2.2.1
  rw [subtitle_pushes, main_observe_started _ hq w argv argv1 sink hgtk hsink hengine hdef,
    (start_playing_observe _ _).2.2.2.2.2]
  cases (get_uri w (main w argv).uri_list (main w argv).flags.suburi).suburi <;>
    simp [load_subtitle, close_down, pushed_subtitle]

/-- The `sprintf` of the subtitle guess is undefined as soon as the stripped
URI, the four bytes of `.srt` and the terminating zero byte exceed the
buffer. -/
theorem sprintf_srt_overflow (s : String)
    (h : SUBURI_BUFFER_SIZE < (s ++ ".srt").utf8ByteSize + 1) :
    sprintf_srt (some s) = none := by
  have hnot : ¬ (s ++ ".srt").utf8ByteSize + 1 ≤ SUBURI_BUFFER_SIZE := by omega
  simp [sprintf_srt, hnot]

/-- Within the buffer, the subtitle pushed by `main` for the first playlist
URI `u`: the cleaned explicit path when `--subtitles` is given, else the
cleaned sibling `.srt` URI when that file exists, else nothing.  The rest of
the list is not looked at. -/
theorem main_subtitle_resolution (w : World) (argv : List String) (u : String)
    (rest : GList) (hloop : Call.gtk_main ∈ (main w argv).trace)
    (hlist : (main w argv).uri_list = some u :: rest) :
    (∀ e, (main w argv).flags.suburi = some e →
      subtitle_pushes (main w argv).trace = [w.clean_uri e])
    ∧ (∀ guess, (main w argv).flags.suburi = none →
        sprintf_srt (w.strip_filename_extension (some u)) = some guess →
        subtitle_pushes (main w argv).trace
          = if w.g_file_test (w.g_filename_from_uri guess) FileTest.EXISTS
            then [w.clean_uri guess] else []) := by
  have hpush := main_subtitle_pushes w argv hloop
  rw [hlist] at hpush
  constructor
  · intro e he
    rw [he] at hpush
    simpa [get_uri] using hpush
  · intro guess hnone hguess
    rw [hnone] at hpush
    simp only [get_uri, hguess] at hpush
    rw [hpush]
    cases w.g_file_test (w.g_filename_from_uri guess) FileTest.EXISTS <;> simp

/-- In a run that enters the main loop, the subtitle is pushed before any
`change_state` request. -/
theorem main_subtitle_before_requests (w : World) (argv : List String)
    (hloop : Call.gtk_main ∈ (main w argv).trace) :
    ∃ pre post, (main w argv).trace
        = pre ++ load_subtitle w (new_engine w (main w argv).flags)
            (get_uri w (main w argv).uri_list (main w argv).flags.suburi).suburi ++ post
      ∧ state_requests pre = [] := by
  obtain ⟨argv1, sink, hgtk, hsink, hengine, hdef⟩ := main_entered w argv hloop
  obtain ⟨ht, _, hu, hfl⟩ := main_started w argv argv1 sink hgtk hsink hengine
  have hq : ∀ x, is_quiet x = true → requested_state x = none :=
    fun x h => (quiet_observers x h).1
  refine ⟨toolkit_calls argv ++ startup_calls w argv1
      ++ [Call.g_object_new "CLUTTER_GST_TYPE_CONTENT",
          Call.g_object_new "CLUTTER_TYPE_ACTOR", Call.engine_init]
      ++ [ Call.gst_bus_add_watch (new_engine w (main w argv).flags).bus,
           Call.gst_object_unref (new_engine w (main w argv).flags).bus ]
      ++ (get_uri w (main w argv).uri_list (main w argv).flags.suburi).trace
      ++ [ Call.engine_load_uri (new_engine w (main w argv).flags)
             (get_uri w (main w argv).uri_list (main w argv).flags.suburi).uri,
           Call.interface_start (wired_ui w (main w argv).uri_list (main w argv).flags)
             (get_uri w (main w argv).uri_list (main w argv).flags.suburi).uri ],
    start_playing (new_engine w (main w argv).flags)
        (get_uri w (main w argv).uri_list (main w argv).flags.suburi).uri
      ++ dlna_start w ++ [Call.gtk_main]
      ++ post_loop_calls w (main w argv).uri_list (main w argv).flags, ?_, ?_⟩
  · rw [ht, hu, hfl, play_session_defined w _ _ hdef]
    simp [pre_loop_calls, List.append_assoc]
  · simp only [state_requests, List.filterMap_append]
    rw [filterMap_quiet _ hq _ (toolkit_calls_quiet w argv argv1),
      filterMap_quiet _ hq _ (startup_calls_quiet w argv argv1),
      filterMap_quiet _ hq _ (get_uri_quiet w _ _)]
    simp [requested_state]

/-- The sample world has the file `/v/movie.srt`: for `/v/movie.mp4` the
sibling is pushed, for `/v/b.mp4` nothing is, and an explicit path wins. -/
theorem main_subtitle_resolution_examples :
    subtitle_pushes (main sample_world ["snappy", "/v/movie.mp4", "/v/b.mp4"]).trace
      = [some "file:///v/movie.srt"]
    ∧ subtitle_pushes (main sample_world ["snappy", "/v/b.mp4", "/v/movie.mp4"]).trace = []
    ∧ subtitle_pushes
        (main sample_world ["snappy", "--subtitles", "/s/x.srt", "/v/movie.mp4"]).trace
      = [some "file:///s/x.srt"] := by
  decide

/-- Beyond the buffer, `main` stops at the `sprintf` of the subtitle guess:
its behaviour is undefined and no subtitle has been pushed. -/
theorem main_subtitle_overflow (w : World) (argv argv1 : List String) (sink : Nat)
    (u : Option String) (rest : GList)
    (hgtk : w.gtk_clutter_init argv = some argv1)
    (hsink : w.clutter_gst_video_sink_new = some sink)
    (hengine : w.engine_init = true)
    (hlist : (process_args w argv1 initial_flags).uri_list = u :: rest)
    (hsub : (process_args w argv1 initial_flags).flags.suburi = none)
    (hover : sprintf_srt (w.strip_filename_extension u) = none) :
    (main w argv).exit = Exit.undefined
    ∧ subtitle_pushes (main w argv).trace = []
    ∧ state_requests (main w argv).trace = [] := by
  have hdef : (get_uri w (process_args w argv1 initial_flags).uri_list
      (process_args w argv1 initial_flags).flags.suburi).defined = false := by
    rw [hlist, hsub]
    simp [get_uri, hover]
  refine ⟨?_, ?_, ?_⟩
  · rw [(main_started w argv argv1 sink hgtk hsink hengine).2.1,
      play_session_undefined w _ _ hdef]
  · rw [subtitle_pushes, main_observe_undefined _
      (fun x h => (quiet_observers x h).2.2.2.2.1) w argv argv1 sink hgtk hsink hengine hdef]
    rfl
  · rw [state_requests, main_observe_undefined _
      (fun x h => (quiet_observers x h).1) w argv argv1 sink hgtk hsink hengine hdef]
    rfl

/-- Whenever `main` returns, it returns 0. -/
theorem main_return_value (w : World) (argv : List String) (ret : Int)
    (h : (main w argv).exit = Exit.returned ret) : ret = 0 := by
  cases hgtk : w.gtk_clutter_init argv with
  | none =>
    rw [(main_toolkit_failure w argv hgtk).2.1] at h
    cases h
  | some argv1 =>
    cases hsink : w.clutter_gst_video_sink_new with
    | none =>
      rw [(main_sink_failure w argv argv1 hgtk hsink).2.1] at h
      cases h
      rfl
    | some sink =>
      cases hengine : w.engine_init with
      | false =>
        rw [(main_engine_failure w argv argv1 sink hgtk hsink hengine).2.1] at h
        cases h
        rfl
      | true =>
        rw [(main_started w argv argv1 sink hgtk hsink hengine).2.1] at h
        cases hdef : (get_uri w (process_args w argv1 initial_flags).uri_list
            (process_args w argv1 initial_flags).flags.suburi).defined with
        | false =>
          rw [play_session_undefined w _ _ hdef] at h
          cases h
        | true =>
          rw [play_session_defined w _ _ hdef] at h
          cases h
          rfl

/-- In a run that enters the main loop, `engine_load_uri` is given the engine
that carries the option variables, and the first element of the list. -/
theorem main_loads_first_uri (w : World) (argv : List String)
    (hloop : Call.gtk_main ∈ (main w argv).trace) :
    Call.engine_load_uri (new_engine w (main w argv).flags)
        ((main w argv).uri_list.headD none) ∈ (main w argv).trace := by
  obtain ⟨argv1, sink, hgtk, hsink, hengine, hdef⟩ := main_entered w argv hloop
  obtain ⟨ht, _, hu, hfl⟩ := main_started w argv argv1 sink hgtk hsink hengine
  rw [ht, hu, hfl, play_session_defined w _ _ hdef]
  simp [pre_loop_calls, get_uri_uri]

/-! ## Claims on `process_args` -/

/-- C1. When the options parse, neither `--recent` nor `--version` is given and
the tokens `t_1 .. t_n` (`n >= 1`) are left after `argv[0]`, `process_args`
returns the list of exactly `n` entries `clean_uri (t_1), .., clean_uri (t_n)`,
in that order, an entry for which `clean_uri` gives `NULL` included; each token
is passed to `clean_uri` once, in order. -/
theorem process_args_uri_list_in_order (w : World) (argv : List String) (flags : Flags)
    (p : Parsed) (prog : String) (tokens : List String)
    (hparse : w.g_option_context_parse argv = Except.ok p)
    (hrecent : p.recent = false) (hversion : p.version = false)
    (hargv : p.argv = prog :: tokens) (hn : 1 ≤ tokens.length) :
    (process_args w argv flags).uri_list = tokens.map w.clean_uri
    ∧ (process_args w argv flags).uri_list.length = tokens.length
    ∧ (∀ i, (process_args w argv flags).uri_list.get? i = (tokens.get? i).map w.clean_uri)
    ∧ cleaned_tokens (process_args w argv flags).trace = tokens := by
  have hpos : 0 < tokens.length := hn
  have hlist : (process_args w argv flags).uri_list = tokens.map w.clean_uri := by
    simp [process_args, hparse, hrecent, hversion, hargv, hpos, add_files_uri_list]
  refine ⟨hlist, ?_, ?_, ?_⟩
  · rw [hlist, List.length_map]
  · intro i
    rw [hlist]
    simp [List.get?_eq_getElem?]
  · have hfiles := add_files_cleaned w tokens []
    simp only [cleaned_tokens] at hfiles
    simp [process_args, hparse, hrecent, hversion, hargv, hpos, cleaned_tokens,
      List.filterMap_append, hfiles, register_options, cleaned_token]

theorem process_args_uri_list_in_order_witness :
    sample_world.g_option_context_parse ["snappy", "--loop", "/v/a.mp4", "", "/v/b.mp4"]
      = Except.ok { blind := false, fullscreen := false, hide := false, loop := true,
                    tags := false, recent := false, secret := false, suburi := none,
                    version := false, argv := ["snappy", "/v/a.mp4", "", "/v/b.mp4"] }
    ∧ (process_args sample_world ["snappy", "--loop", "/v/a.mp4", "", "/v/b.mp4"]
        initial_flags).uri_list = [some "file:///v/a.mp4", none, some "file:///v/b.mp4"] := by
  refine ⟨rfl, ?_⟩
  have h := process_args_uri_list_in_order sample_world
    ["snappy", "--loop", "/v/a.mp4", "", "/v/b.mp4"] initial_flags _ "snappy"
    ["/v/a.mp4", "", "/v/b.mp4"] rfl rfl rfl rfl (by decide)
  rw [h.1]
  decide

/-- C2. When the options parse and `--recent` is given, whatever else is on
the command line, `process_args` asks the history store and prints the
listing (header and one numbered line per entry) or the history-not-found
message; it prints neither the version line nor the help text, passes no token
to `clean_uri`, and returns the empty list. -/
theorem process_args_recent_shows_history (w : World) (argv : List String) (flags : Flags)
    (p : Parsed) (hparse : w.g_option_context_parse argv = Except.ok p)
    (hrecent : p.recent = true) :
    (process_args w argv flags).trace
      = register_options ++ [Call.g_option_context_parse argv, Call.get_recently_viewed]
        ++ (match w.get_recently_viewed with
            | some recent =>
              Call.g_print "These are the recently viewed URIs: \n\n" []
                :: print_recent 0 recent
            | none =>
              [Call.g_print "ERROR: Can't find history of recently viewed URIs\n" []])
    ∧ (∀ args, Call.g_print "snappy version %s\n" args ∉ (process_args w argv flags).trace)
    ∧ Call.g_option_context_get_help ∉ (process_args w argv flags).trace
    ∧ (∀ args, Call.g_print "%s" args ∉ (process_args w argv flags).trace)
    ∧ cleaned_tokens (process_args w argv flags).trace = []
    ∧ (process_args w argv flags).uri_list = [] := by
  refine ⟨process_args_recent_trace w argv flags p hparse hrecent,
    process_args_recent_no_version_line w argv flags p hparse hrecent,
    (process_args_recent_no_help w argv flags p hparse hrecent).1,
    (process_args_recent_no_help w argv flags p hparse hrecent).2, ?_, ?_⟩
  · exact filterMap_eq_nil_of_none _ _ (fun x hx => by
      have hv := process_args_recent_no_clean w argv flags p hparse hrecent
      cases x <;> first | rfl | exact absurd hx (hv _))
  · cases h : w.get_recently_viewed <;> simp [process_args, hparse, hrecent, h]

theorem process_args_recent_shows_history_witness :
    (process_args sample_world ["snappy", "--version", "/v/a.mp4", "--recent"]
        initial_flags).trace
      = register_options
        ++ [Call.g_option_context_parse ["snappy", "--version", "/v/a.mp4", "--recent"],
            Call.get_recently_viewed,
            Call.g_print "These are the recently viewed URIs: \n\n" [],
            Call.g_print "0%d: %s \n" [PrintArg.int 1, PrintArg.str "file:///v/a.mp4"],
            Call.g_print "0%d: %s \n" [PrintArg.int 2, PrintArg.str "file:///v/b.mp4"]]
    ∧ (process_args sample_world ["snappy", "--version", "/v/a.mp4", "--recent"]
        initial_flags).uri_list = [] :=
  have h := process_args_recent_shows_history sample_world
    ["snappy", "--version", "/v/a.mp4", "--recent"] initial_flags
    { blind := false, fullscreen := false, hide := false, loop := false, tags := false,
      recent := true, secret := false, suburi := none, version := true,
      argv := ["snappy", "/v/a.mp4"] } rfl rfl
  ⟨h.1, h.2.2.2.2.2⟩

/-- C3. When the options parse, `--version` is given and `--recent` is not,
whatever the other options and the positional tokens, `process_args` prints
the version line and nothing else, passes no token to `clean_uri` and returns
the empty list; when `--recent` is given, it does not print the version
line. -/
theorem process_args_version (w : World) (argv : List String) (flags : Flags)
    (p : Parsed) (hparse : w.g_option_context_parse argv = Except.ok p) :
    (p.recent = false → p.version = true →
      (process_args w argv flags).trace
        = register_options ++ [Call.g_option_context_parse argv,
            Call.g_print "snappy version %s\n" [PrintArg.str VERSION]]
      ∧ cleaned_tokens (process_args w argv flags).trace = []
      ∧ (process_args w argv flags).uri_list = [])
    ∧ (p.recent = true →
      ∀ args, Call.g_print "snappy version %s\n" args ∉ (process_args w argv flags).trace) := by
  constructor
  · intro hrecent hversion
    simp [process_args, hparse, hrecent, hversion, register_options, cleaned_tokens,
      cleaned_token]
  · intro hrecent
    exact process_args_recent_no_version_line w argv flags p hparse hrecent

theorem process_args_version_witness :
    (process_args sample_world ["snappy", "--secret", "--version", "/v/a.mp4"]
        initial_flags).trace
      = register_options
        ++ [Call.g_option_context_parse ["snappy", "--secret", "--version", "/v/a.mp4"],
            Call.g_print "snappy version %s\n" [PrintArg.str "1.0"]]
    ∧ (process_args sample_world ["snappy", "--secret", "--version", "/v/a.mp4"]
        initial_flags).uri_list = [] :=
  have h := (process_args_version sample_world
    ["snappy", "--secret", "--version", "/v/a.mp4"] initial_flags
    { blind := false, fullscreen := false, hide := false, loop := false, tags := false,
      recent := false, secret := true, suburi := none, version := true,
      argv := ["snappy", "/v/a.mp4"] } rfl).1 rfl rfl
  ⟨h.1, h.2.2⟩

/-! ## Claims on `main` and `close_down` -/

/-- C4 (as stated, refuted). Without a positional token, and likewise with
`--version`, `process_args` returns the empty list and `main` still calls
`interface_init` and `engine_init` and enters `gtk_main`. -/
theorem main_no_early_return_counterexample :
    (main sample_world ["snappy"]).uri_list = []
    ∧ Call.interface_init (new_ui sample_world [] initial_flags)
        ∈ (main sample_world ["snappy"]).trace
    ∧ Call.engine_init ∈ (main sample_world ["snappy"]).trace
    ∧ Call.gtk_main ∈ (main sample_world ["snappy"]).trace
    ∧ (main sample_world ["snappy", "--version"]).uri_list = []
    ∧ Call.engine_init ∈ (main sample_world ["snappy", "--version"]).trace
    ∧ Call.gtk_main ∈ (main sample_world ["snappy", "--version"]).trace := by
  decide

/-- C4 (amended). When the options parse, neither `--recent` nor `--version`
is given and no positional token is left, `main` does not return after
printing: provided the toolkit, the video sink and the engine initialise, it
prints "Opening snappy without content." and the help, then calls
`interface_init` and `engine_init`, loads no URI (`engine_load_uri` and
`interface_start` get `NULL`), requests neither "Paused" nor "Playing", enters
`gtk_main`, and returns 0 after `close_down`. -/
theorem main_opens_without_content (w : World) (argv argv1 : List String) (p : Parsed)
    (sink : Nat)
    (hgtk : w.gtk_clutter_init argv = some argv1)
    (hparse : w.g_option_context_parse argv1 = Except.ok p)
    (hrecent : p.recent = false) (hversion : p.version = false)
    (hargs : p.argv.length ≤ 1)
    (hsink : w.clutter_gst_video_sink_new = some sink)
    (hengine : w.engine_init = true) :
    (main w argv).uri_list = []
    ∧ (main w argv).flags = store_options initial_flags p
    ∧ (main w argv).exit = Exit.returned 0
    ∧ (main w argv).trace
      = toolkit_calls argv
        ++ [ Call.g_strdup w.SNAPPY_DATA_DIR,
             Call.g_file_test (some w.SNAPPY_DATA_DIR) FileTest.EXISTS_OR_IS_DIR ]
        ++ register_options
        ++ [ Call.g_option_context_parse argv1,
             Call.g_print "Opening snappy without content.\n\n" [],
             Call.g_option_context_get_help,
             Call.g_print "%s" [PrintArg.str w.g_option_context_get_help],
             Call.gst_init,
             Call.clutter_gst_init,
             Call.interface_init (new_ui w [] (store_options initial_flags p)),
             Call.clutter_gst_video_sink_new,
             Call.g_object_new "CLUTTER_GST_TYPE_CONTENT",
             Call.g_object_new "CLUTTER_TYPE_ACTOR",
             Call.engine_init,
             Call.gst_bus_add_watch w.bus,
             Call.gst_object_unref w.bus,
             Call.engine_load_uri (new_engine w (store_options initial_flags p)) none,
             Call.interface_start (wired_ui w [] (store_options initial_flags p)) none ]
        ++ load_subtitle w (new_engine w (store_options initial_flags p))
            (store_options initial_flags p).suburi
        ++ dlna_start w
        ++ [Call.gtk_main]
        ++ close_down (wired_ui w [] (store_options initial_flags p))
            (new_engine w (store_options initial_flags p))
        ++ dlna_stop w
        ++ [Call.g_list_free (some []), Call.g_option_context_free] := by
  obtain ⟨ht, he, hu, hfl⟩ := main_started w argv argv1 sink hgtk hsink hengine
  obtain ⟨hat, hau⟩ := process_args_help w argv1 initial_flags p hparse hrecent hversion hargs
  have haf := process_args_flags w argv1 initial_flags p hparse
  have hdef : (get_uri w [] (store_options initial_flags p).suburi).defined = true := rfl
  refine ⟨by rw [hu, hau], by rw [hfl, haf], ?_, ?_⟩
  · rw [he, hau, haf, play_session_defined w _ _ hdef]
  · rw [ht, hau, haf, play_session_defined w _ _ hdef]
    simp [startup_calls, hat, hau, haf, pre_loop_calls, post_loop_calls, get_uri, start_playing,
      quit_calls, new_engine]

theorem main_opens_without_content_witness :
    sample_world.g_option_context_parse ["snappy", "--loop"]
      = Except.ok { blind := false, fullscreen := false, hide := false, loop := true,
                    tags := false, recent := false, secret := false, suburi := none,
                    version := false, argv := ["snappy"] }
    ∧ (main sample_world ["snappy", "--loop"]).uri_list = []
    ∧ (main sample_world ["snappy", "--loop"]).exit = Exit.returned 0 :=
  have h := main_opens_without_content sample_world ["snappy", "--loop"] ["snappy", "--loop"]
    { blind := false, fullscreen := false, hide := false, loop := true,
      tags := false, recent := false, secret := false, suburi := none,
      version := false, argv := ["snappy"] } 10 rfl rfl rfl rfl (by decide) rfl rfl
  ⟨rfl, h.1, h.2.2.1⟩

/-- C5. The value `main` returns when `engine_init` fails, when the video
sink cannot be created, and when the options do not parse: it is 0 in all
three runs. -/
theorem main_returns_zero_on_failure :
    (main engine_failure_world ["snappy", "/v/movie.mp4"]).exit = Exit.returned 0
    ∧ (main sink_failure_world ["snappy", "/v/movie.mp4"]).exit = Exit.returned 0
    ∧ sample_world.g_option_context_parse ["snappy", "--bogus"]
        = Except.error "Unknown option --bogus"
    ∧ (main sample_world ["snappy", "--bogus"]).exit = Exit.returned 0 := by
  refine ⟨by decide, by decide, rfl, by decide⟩

/-- C6 (as stated, refuted). With an empty playback list `main` followed by
`close_down` does make a `change_state` request: the "Null" of `close_down`. -/
theorem main_empty_list_requests_null_counterexample :
    (main sample_world ["snappy"]).uri_list = []
    ∧ state_requests (main sample_world ["snappy"]).trace = ["Null"] := by
  decide

/-- C6 (amended). In every run of `main` the `change_state` requests are
none at all, or "Null" alone, or "Paused", "Playing", "Null" in that order, so
"Playing" is requested only right after "Paused"; with an empty playback list
neither "Paused" nor "Playing" is requested, and the one request made once
the main loop has returned is the "Null" of `close_down`. -/
theorem main_state_requests (w : World) (argv : List String) :
    (state_requests (main w argv).trace = []
      ∨ state_requests (main w argv).trace = ["Null"]
      ∨ state_requests (main w argv).trace = ["Paused", "Playing", "Null"])
    ∧ ((main w argv).uri_list = [] →
        state_requests (main w argv).trace = []
        ∨ state_requests (main w argv).trace = ["Null"])
    ∧ ((main w argv).uri_list = [] → Call.gtk_main ∈ (main w argv).trace →
        state_requests (main w argv).trace = ["Null"]) := by
  rcases main_state_requests_cases w argv with ⟨hno, hnil⟩ | ⟨hin, hreq⟩
  · exact ⟨Or.inl hnil, fun _ => Or.inl hnil, fun _ hloop => absurd hloop hno⟩
  · refine ⟨?_, ?_, ?_⟩
    · by_cases hsome : ((main w argv).uri_list.headD none).isSome
      · rw [if_pos hsome] at hreq
        exact Or.inr (Or.inr hreq)
      · rw [if_neg hsome] at hreq
        exact Or.inr (Or.inl hreq)
    · intro hempty
      rw [hempty] at hreq
      exact Or.inr (by simpa using hreq)
    · intro hempty _
      rw [hempty] at hreq
      simpa using hreq

theorem main_state_requests_witness :
    (main sample_world ["snappy", "--bogus"]).uri_list = []
    ∧ Call.gtk_main ∈ (main sample_world ["snappy", "--bogus"]).trace
    ∧ state_requests (main sample_world ["snappy", "--bogus"]).trace = ["Null"] :=
  ⟨by decide, by decide,
    (main_state_requests sample_world ["snappy", "--bogus"]).2.2 (by decide) (by decide)⟩

/-- C7 (as stated, refuted). After a normal return of the main loop nothing
is called between `screensaver_free` and the unref of the player, so no
UI-release step exists; and when `engine_init` fails after `interface_init`
has run, `main` makes none of the teardown calls. -/
theorem main_teardown_counterexample :
    after_main_loop (main sample_world ["snappy", "/v/movie.mp4"]).trace
      = [ Call.g_print "closing snappy\n" [],
          Call.add_uri_unfinished { secret := false, loop := false, player := 20, bus := 21 },
          Call.change_state { secret := false, loop := false, player := 20, bus := 21 } "Null",
          Call.screensaver_enable 30 true,
          Call.screensaver_free 30,
          Call.gst_object_unref 20,
          Call.g_list_free (some [some "file:///v/movie.mp4"]),
          Call.g_option_context_free ]
    ∧ Call.interface_init (new_ui engine_failure_world [some "file:///v/movie.mp4"]
          initial_flags)
        ∈ (main engine_failure_world ["snappy", "/v/movie.mp4"]).trace
    ∧ (main engine_failure_world ["snappy", "/v/movie.mp4"]).trace.filter is_teardown = [] := by
  decide

/-- C7 (amended). When the main loop returns, the calls that follow are, in
this order: the print of `close_down`, `add_uri_unfinished`, `change_state` to
"Null", `screensaver_enable (TRUE)`, `screensaver_free`, the unref of the
engine player, then (with `ENABLE_DBUS`) `close_dlna`, `g_list_free` and
`g_option_context_free`; there is no UI-release call.  When `engine_init`
fails, `close_down` does not run: `main` goes to `g_list_free` and
`g_option_context_free` and makes none of the teardown calls. -/
theorem main_teardown_order (w : World) (argv : List String) :
    (Call.gtk_main ∈ (main w argv).trace →
      after_main_loop (main w argv).trace
        = [ Call.g_print "closing snappy\n" [],
            Call.add_uri_unfinished (new_engine w (main w argv).flags),
            Call.change_state (new_engine w (main w argv).flags) "Null",
            Call.screensaver_enable w.screensaver true,
            Call.screensaver_free w.screensaver,
            Call.gst_object_unref w.player ]
          ++ dlna_stop w
          ++ [Call.g_list_free (some (main w argv).uri_list), Call.g_option_context_free])
    ∧ (∀ argv1 sink, w.gtk_clutter_init argv = some argv1 →
        w.clutter_gst_video_sink_new = some sink → w.engine_init = false →
        (main w argv).trace
          = toolkit_calls argv ++ startup_calls w argv1
            ++ [ Call.g_object_new "CLUTTER_GST_TYPE_CONTENT",
                 Call.g_object_new "CLUTTER_TYPE_ACTOR", Call.engine_init,
                 Call.g_list_free (some (main w argv).uri_list),
                 Call.g_option_context_free ]
        ∧ (main w argv).trace.filter is_teardown = []) := by
  constructor
  · intro hloop
    rw [main_after_loop w argv hloop]
    simp [post_loop_calls, close_down, wired_ui, new_ui, new_engine, quit_calls]
  · intro argv1 sink hgtk hsink hengine
    constructor
    · obtain ⟨ht, _, hu, _⟩ := main_engine_failure w argv argv1 sink hgtk hsink hengine
      rw [ht, hu]
      simp [quit_calls]
    · exact filter_teardown_quiet _
        (main_engine_failure_quiet w argv argv1 sink hgtk hsink hengine)

theorem main_teardown_order_witness :
    Call.gtk_main ∈ (main sample_world ["snappy", "/v/movie.mp4", "/v/b.mp4"]).trace
    ∧ after_main_loop (main sample_world ["snappy", "/v/movie.mp4", "/v/b.mp4"]).trace
      = [ Call.g_print "closing snappy\n" [],
          Call.add_uri_unfinished (new_engine sample_world
            (main sample_world ["snappy", "/v/movie.mp4", "/v/b.mp4"]).flags),
          Call.change_state (new_engine sample_world
            (main sample_world ["snappy", "/v/movie.mp4", "/v/b.mp4"]).flags) "Null",
          Call.screensaver_enable 30 true,
          Call.screensaver_free 30,
          Call.gst_object_unref 20 ]
        ++ dlna_stop sample_world
        ++ [ Call.g_list_free
               (some (main sample_world ["snappy", "/v/movie.mp4", "/v/b.mp4"]).uri_list),
             Call.g_option_context_free ] :=
  ⟨by decide,
    (main_teardown_order sample_world ["snappy", "/v/movie.mp4", "/v/b.mp4"]).1 (by decide)⟩

/-- C8 (as stated, refuted). In a session started with `--secret`,
`close_down` does call `add_uri_unfinished`, on the engine whose `secret`
field is set. -/
theorem main_secret_saves_counterexample :
    position_saves (main sample_world ["snappy", "--secret", "/v/movie.mp4"]).trace
      = [{ secret := true, loop := false, player := 20, bus := 21 }] := by
  decide

/-- C8 (amended). In every run of `main` that enters the main loop, whether
`--secret` is given or not, `add_uri_unfinished` is called exactly once, by
`close_down`, right before `change_state` to "Null".  The option reaches the
engine only as the field `engine->secret`: the engine given to
`engine_load_uri` and to `add_uri_unfinished` carries it, and what is
suppressed in secret mode is left to those functions. -/
theorem main_saves_position_once (w : World) (argv : List String)
    (hloop : Call.gtk_main ∈ (main w argv).trace) :
    position_saves (main w argv).trace = [new_engine w (main w argv).flags]
    ∧ Call.engine_load_uri (new_engine w (main w argv).flags)
        ((main w argv).uri_list.headD none) ∈ (main w argv).trace
    ∧ (∃ rest, after_main_loop (main w argv).trace
        = Call.g_print "closing snappy\n" []
          :: Call.add_uri_unfinished (new_engine w (main w argv).flags)
          :: Call.change_state (new_engine w (main w argv).flags) "Null" :: rest)
    ∧ (new_engine w (main w argv).flags).secret = (main w argv).flags.secret
    ∧ (∀ argv1 p, w.gtk_clutter_init argv = some argv1 →
        w.g_option_context_parse argv1 = Except.ok p →
        (main w argv).flags.secret = p.secret) := by
  refine ⟨main_position_saves w argv hloop, main_loads_first_uri w argv hloop, ?_, rfl, ?_⟩
  · rw [main_after_loop w argv hloop]
    exact ⟨[ Call.screensaver_enable w.screensaver true,
             Call.screensaver_free w.screensaver,
             Call.gst_object_unref w.player ]
            ++ dlna_stop w ++ quit_calls (some (main w argv).uri_list),
      by simp [post_loop_calls, close_down, wired_ui, new_ui, new_engine]⟩
  · intro argv1 p hgtk hparse
    obtain ⟨argv2, sink, hgtk2, hsink, hengine, _⟩ := main_entered w argv hloop
    rw [hgtk] at hgtk2
    cases hgtk2
    rw [(main_started w argv argv1 sink hgtk hsink hengine).2.2.2,
      process_args_flags w argv1 initial_flags p hparse]
    simp [store_options, store_flag, initial_flags]

theorem main_saves_position_once_witness :
    Call.gtk_main ∈ (main sample_world ["snappy", "--secret", "/v/a.mp4"]).trace
    ∧ position_saves (main sample_world ["snappy", "--secret", "/v/a.mp4"]).trace
      = [new_engine sample_world (main sample_world ["snappy", "--secret", "/v/a.mp4"]).flags]
    ∧ (main sample_world ["snappy", "--secret", "/v/a.mp4"]).flags.secret = true :=
  ⟨by decide,
    (main_saves_position_once sample_world ["snappy", "--secret", "/v/a.mp4"] (by decide)).1,
    by decide⟩

/-- C9. For a first playlist URI of 1112 bytes and no `--subtitles` option,
`strip_filename_extension` leaves 1108 bytes and `sprintf` is asked to write
1113 bytes into the 1024 bytes of `suburi_path_guessing`: the run of `main` is
undefined from there on, before any `set_subtitle_uri` or `change_state`
call. -/
theorem main_subtitle_guess_overflows :
    (main sample_world ["snappy", long_token]).uri_list = [some ("file://" ++ long_token)]
    ∧ (main sample_world ["snappy", long_token]).flags.suburi = none
    ∧ sample_world.strip_filename_extension (some ("file://" ++ long_token))
        = some long_uri_no_extension
    ∧ (long_uri_no_extension ++ ".srt").utf8ByteSize + 1 = 1113
    ∧ sprintf_srt (some long_uri_no_extension) = none
    ∧ (main sample_world ["snappy", long_token]).exit = Exit.undefined
    ∧ subtitle_pushes (main sample_world ["snappy", long_token]).trace = []
    ∧ state_requests (main sample_world ["snappy", long_token]).trace = [] := by
  decide

/-- C10 (as stated, refuted). Two invocations of `close_down` in succession
on the same `ui` and `engine` call `screensaver_free` twice on the same handle
and unref the same player twice. -/
theorem close_down_twice_counterexample :
    screensaver_frees (close_down_twice (wired_ui sample_world [] initial_flags)
        (new_engine sample_world initial_flags)) = [30, 30]
    ∧ object_unrefs (close_down_twice (wired_ui sample_world [] initial_flags)
        (new_engine sample_world initial_flags)) = [20, 20] := by
  decide

/-- C10 (amended). `close_down` has no guard and writes no field of `ui` or
`engine`: one invocation calls `screensaver_free` once and unrefs the player
once, and a second invocation on the same `ui` and `engine` repeats both on
the same handles.  `main` invokes `close_down` at most once: in every run
`screensaver_free` is called at most once, on `ui->screensaver`, and the only
objects unreffed are the bus and then, at most once, the player. -/
theorem close_down_releases (w : World) (argv : List String) (ui : UserInterface)
    (engine : GstEngine) :
    screensaver_frees (close_down ui engine) = [ui.screensaver]
    ∧ object_unrefs (close_down ui engine) = [engine.player]
    ∧ screensaver_frees (close_down_twice ui engine) = [ui.screensaver, ui.screensaver]
    ∧ object_unrefs (close_down_twice ui engine) = [engine.player, engine.player]
    ∧ (screensaver_frees (main w argv).trace = []
        ∨ screensaver_frees (main w argv).trace = [w.screensaver])
    ∧ (object_unrefs (main w argv).trace = []
        ∨ object_unrefs (main w argv).trace = [w.bus]
        ∨ object_unrefs (main w argv).trace = [w.bus, w.player]) := by
  have hfree : ∀ x, is_quiet x = true → freed_screensaver x = none :=
    fun x h => (quiet_observers x h).2.2.1
  have hunref : ∀ x, is_quiet x = true → unreffed_object x = none :=
    fun x h => (quiet_observers x h).2.2.2.1
  refine ⟨rfl, rfl, rfl, rfl, ?_, ?_⟩
  · cases hgtk : w.gtk_clutter_init argv with
    | none => exact Or.inl (main_observe_toolkit_failure _ hfree w argv hgtk)
    | some argv1 =>
      cases hsink : w.clutter_gst_video_sink_new with
      | none => exact Or.inl (main_observe_sink_failure _ hfree w argv argv1 hgtk hsink)
      | some sink =>
        cases hengine : w.engine_init with
        | false =>
          exact Or.inl (main_observe_engine_failure _ hfree w argv argv1 sink hgtk hsink hengine)
        | true =>
          cases hdef : (get_uri w (process_args w argv1 initial_flags).uri_list
              (process_args w argv1 initial_flags).flags.suburi).defined with
          | false =>
            left
            rw [screensaver_frees, main_observe_undefined _ hfree w argv argv1 sink
              hgtk hsink hengine hdef]
            rfl
          | true =>
            right
            rw [screensaver_frees, main_observe_started _ hfree w argv argv1 sink
              hgtk hsink hengine hdef, (load_subtitle_observe _ _ _).2.2.1,
              (start_playing_observe _ _).2.2.1]
            rfl
  · cases hgtk : w.gtk_clutter_init argv with
    | none => exact Or.inl (main_observe_toolkit_failure _ hunref w argv hgtk)
    | some argv1 =>
      cases hsink : w.clutter_gst_video_sink_new with
      | none => exact Or.inl (main_observe_sink_failure _ hunref w argv argv1 hgtk hsink)
      | some sink =>
        cases hengine : w.engine_init with
        | false =>
          exact Or.inl
            (main_observe_engine_failure _ hunref w argv argv1 sink hgtk hsink hengine)
        | true =>
          cases hdef : (get_uri w (process_args w argv1 initial_flags).uri_list
              (process_args w argv1 initial_flags).flags.suburi).defined with
          | false =>
            right; left
            rw [object_unrefs, main_observe_undefined _ hunref w argv argv1 sink
              hgtk hsink hengine hdef]
            rfl
          | true =>
            right; right
            rw [object_unrefs, main_observe_started _ hunref w argv argv1 sink
              hgtk hsink hengine hdef, (load_subtitle_observe _ _ _).2.2.2.1,
              (start_playing_observe _ _).2.2.2.1]
            rfl

end Snappy
